import Mathlib

/-!
Shallow embedding of the waitlist widget in
`apps/web/app/(waitlist)/_components/waitlist.tsx`.

The component keeps a count of waitlist signups in `localStorage` under the
key `waitlist_count` as a JSON record `{count, timestamp}`, refreshing it
from `GET /api/waitlist/count` when the entry is absent, unparseable or
older than `CACHE_DURATION`.  Submitting an email posts to
`/api/waitlist/join`; on success the in-memory count is optimistically
incremented, republished to the cache, and a success flag is persisted
under `waitlist_success`.

JavaScript-value subtleties that matter for the embedding:
* `JSON.parse` may succeed on a value that is not a `{count, timestamp}`
  record; destructuring then yields `undefined` fields (no exception),
  while parsing failures and destructuring of `null` throw and are caught.
  We model the stored cache as `Stored`: absent, unparseable (the `catch`
  branch fires), or a parsed record whose fields are `Option Int`
  (`none` = the field is `undefined`).
* `Date.now() - undefined` is `NaN`, and `NaN > CACHE_DURATION` is `false`,
  so a record with an undefined timestamp is treated as fresh.
* `errorData.error || "Failed to join waitlist"` uses JS truthiness: the
  empty string falls through to the generic message.
-/

/-- `const CACHE_DURATION = 2 * 60 * 60 * 1000;` (milliseconds). -/
def CACHE_DURATION : Int := 2 * 60 * 60 * 1000

/-- A parsed `localStorage` cache record as JS sees it after
`const { count, timestamp } = JSON.parse(cachedData)`:
either field may be `undefined` (`none`) when the parsed value is not a
proper `{count, timestamp}` record. -/
structure CacheEntryJs where
  count : Option Int
  timestamp : Option Int
  deriving DecidableEq, Repr

/-- The state of the `waitlist_count` key in `localStorage`. -/
inductive Stored where
  /-- `localStorage.getItem` returned `null`. -/
  | absent : Stored
  /-- `JSON.parse` (or destructuring `null`) threw; the `catch (e)` branch
  logs `"Error parsing waitlist cache:"` and falls through. -/
  | unparseable : Stored
  /-- `JSON.parse` succeeded and destructuring yielded this record. -/
  | parsed (e : CacheEntryJs) : Stored
  deriving DecidableEq, Repr

/-- Environment of one `queryFn` run: the current clock (`Date.now()`)
and the behaviour of `GET /api/waitlist/count` (`some c` = HTTP 200 with
body `{count: c}`; `none` = network error or non-2xx response, in which
case `getWaitlistCount` throws `"Failed to get waitlist count"`). -/
structure QueryEnv where
  now : Int
  server : Option Int
  deriving DecidableEq, Repr

/-- Observable outcome of one `queryFn` run: the value returned (or the
thrown error message), the number of network calls made, the state of the
`waitlist_count` key afterwards, and whether the cache-parse error was
logged via `console.error`. -/
structure QueryOutcome where
  result : Except String (Option Int)
  netCalls : Nat
  stored : Stored
  loggedParseError : Bool
  deriving Repr

/-- The fetch-and-persist tail of `queryFn`:
`const data = await getWaitlistCount(); localStorage.setItem(...); return data;`.
On fetch failure the error propagates and the cache is left untouched. -/
def fetchAndPersist (st : Stored) (env : QueryEnv) (logged : Bool) :
    QueryOutcome :=
  match env.server with
  | some c =>
      { result := .ok (some c)
        netCalls := 1
        stored := .parsed ⟨some c, some env.now⟩
        loggedParseError := logged }
  | none =>
      { result := .error "Failed to get waitlist count"
        netCalls := 1
        stored := st
        loggedParseError := logged }

/-- The anonymous `queryFn` of `useQuery` in `useWaitlistCount` — the
cache-aware `getCount` operation.  A parsed record with a numeric
timestamp is expired iff `Date.now() - timestamp > CACHE_DURATION`;
a record with an undefined timestamp compares as `NaN > CACHE_DURATION`,
which is `false`, so it is served as fresh. -/
def waitlistQueryFn (st : Stored) (env : QueryEnv) : QueryOutcome :=
  match st with
  | .absent => fetchAndPersist st env false
  | .unparseable => fetchAndPersist st env true
  | .parsed e =>
      match e.timestamp with
      | some t =>
          if env.now - t > CACHE_DURATION then
            fetchAndPersist st env false
          else
            { result := .ok e.count
              netCalls := 0
              stored := st
              loggedParseError := false }
      | none =>
          { result := .ok e.count
            netCalls := 0
            stored := st
            loggedParseError := false }

/-- The error message thrown by `joinWaitlist` on a non-2xx response:
`new Error(errorData.error || "Failed to join waitlist")`.  `body` is the
`error` field of the parsed response body (`none` when the field is absent
or the body failed to parse, in which case `.catch(() => ({}))` yields
`{}`).  JS `||` treats the empty string as falsy. -/
def joinErrorMessage (body : Option String) : String :=
  match body with
  | some s => if s = "" then "Failed to join waitlist" else s
  | none => "Failed to join waitlist"

/-- Client-side state of the widget relevant to the claims:
`queryData` is `query.data?.count` as a JS value (`none` = no data yet, a
failed query, or a cached record whose `count` was `undefined`);
`stored` is the `waitlist_count` key; `successFlagStored` is the
`waitlist_success` key; `successMem` is the in-memory `success` state of
`useWaitlistCount`. -/
structure AppState where
  queryData : Option Int
  stored : Stored
  successFlagStored : Option String
  successMem : Bool
  deriving DecidableEq, Repr

/-- The displayed count, `count: query.data?.count ?? 0` (line 119),
rendered by `NumberFlow`. -/
def displayedCount (s : AppState) : Int :=
  s.queryData.getD 0

/-- Running the count query against the widget state: the cache key is
updated per `waitlistQueryFn`, and on success `query.data` becomes the
returned value; on failure `query.data` is left as it was.  The
`waitlist_success` key and in-memory success state are untouched. -/
def runQuery (s : AppState) (env : QueryEnv) : AppState × QueryOutcome :=
  let o := waitlistQueryFn s.stored env
  ({ s with
      stored := o.stored
      queryData := match o.result with
        | .ok v => v
        | .error _ => s.queryData }, o)

/-- Outcome of `POST /api/waitlist/join` as seen by the mutation. -/
inductive SubmitResp where
  /-- HTTP 2xx: `joinWaitlist` resolves, `onSuccess` runs. -/
  | ok2xx : SubmitResp
  /-- Non-2xx: `joinWaitlist` throws `joinErrorMessage e` where `e` is the
  parsed body's `error` field (`none` = absent or unparseable body). -/
  | errBody (e : Option String) : SubmitResp
  /-- The fetch itself rejected (network error); the rejection is an
  `Error` whose message is browser-defined. -/
  | netErr (msg : String) : SubmitResp
  deriving DecidableEq, Repr

/-- Observable outcome of one `mutate(email)` call. -/
structure SubmitOutcome where
  state : AppState
  successToast : Bool
  errorToast : Option String
  confetti : Bool
  /-- Number of `GET /api/waitlist/count` calls made by the mutation
  handlers: the optimistic update never re-fetches the server count. -/
  countRefetches : Nat
  deriving DecidableEq, Repr

/-- The `useMutation` handlers: on success, `setSuccess(true)`,
`newCount = (query.data?.count ?? 0) + 1`, `setQueryData({count: newCount})`,
`localStorage.setItem(LOCAL_STORAGE_KEY, {count: newCount, timestamp: Date.now()})`,
confetti and a success toast; on error only a toast, using the thrown
message when the error is an `Error` (it always is here). -/
def submit (s : AppState) (now : Int) (resp : SubmitResp) : SubmitOutcome :=
  match resp with
  | .ok2xx =>
      let newCount := s.queryData.getD 0 + 1
      { state :=
          { s with
              queryData := some newCount
              stored := .parsed ⟨some newCount, some now⟩
              successMem := true }
        successToast := true
        errorToast := none
        confetti := true
        countRefetches := 0 }
  | .errBody e =>
      { state := s
        successToast := false
        errorToast := some (joinErrorMessage e)
        confetti := false
        countRefetches := 0 }
  | .netErr msg =>
      { state := s
        successToast := false
        errorToast := some msg
        confetti := false
        countRefetches := 0 }

/-- The `useEffect` in `WaitlistForm` watching `waitlist.success`: when the
in-memory success state is true it persists `waitlist_success = "true"` and
shows the submitted UI; otherwise it reads the stored flag and shows the
submitted UI iff the stored value is `"true"`.  Returns the new state and
the resulting `localSuccess`. -/
def successEffect (s : AppState) : AppState × Bool :=
  if s.successMem then
    ({ s with successFlagStored := some "true" }, true)
  else if s.successFlagStored = some "true" then
    (s, true)
  else
    (s, false)

/-- The premise of the amended C2: the states in which `queryFn` reaches
the remote fetch — cache absent, cache unparseable, or a parsed record
with a numeric timestamp strictly older than `CACHE_DURATION`. -/
def triggersFetch (st : Stored) (env : QueryEnv) : Prop :=
  st = .absent ∨ st = .unparseable ∨
    ∃ e t, st = .parsed e ∧ e.timestamp = some t ∧
      env.now - t > CACHE_DURATION

/-- The premise of the amended C8: whenever the cache would be served
(a parsed record that is fresh, or has an undefined timestamp), its stored
count is a non-negative integer. -/
def goodCacheCount (st : Stored) (env : QueryEnv) : Prop :=
  ∀ e, st = .parsed e →
    (∀ t, e.timestamp = some t → ¬ env.now - t > CACHE_DURATION) →
    ∃ k, e.count = some k ∧ 0 ≤ k

/-! ## Claims -/

/-- C1: after a successful `submit`, the displayed count equals the
displayed count before the call plus exactly 1; that value is persisted as
the new cached count with a fresh timestamp and no re-fetch of the server
count; and the success flag is persisted as `"true"`, so it reads true on
every subsequent load. -/
theorem submit_success_increments_and_persists (s : AppState) (now : Int) :
    displayedCount (submit s now .ok2xx).state = displayedCount s + 1 ∧
    (submit s now .ok2xx).state.stored =
      .parsed ⟨some (displayedCount s + 1), some now⟩ ∧
    (submit s now .ok2xx).countRefetches = 0 ∧
    (successEffect (submit s now .ok2xx).state).1.successFlagStored =
      some "true" ∧
    ∀ qd st, (successEffect ⟨qd, st, some "true", false⟩).2 = true := by
  refine ⟨?_, rfl, rfl, ?_, ?_⟩
  · simp [submit, displayedCount]
  · simp [submit, successEffect]
  · intro qd st
    simp [successEffect]

/-- C2 counterexample: with a cached record whose age is exactly
`CACHE_DURATION` (so `now − timestamp ≥ TTL` holds), `queryFn` makes zero
network calls and serves the cached value — the code's expiry test is
strict (`>`), so the claim's `≥` boundary fails. -/
theorem getCount_boundary_age_counterexample :
    (⟨CACHE_DURATION, some 7⟩ : QueryEnv).now - 0 ≥ CACHE_DURATION ∧
    (waitlistQueryFn (.parsed ⟨some 42, some 0⟩)
      ⟨CACHE_DURATION, some 7⟩).netCalls = 0 ∧
    (waitlistQueryFn (.parsed ⟨some 42, some 0⟩)
      ⟨CACHE_DURATION, some 7⟩).result = .ok (some 42) ∧
    (waitlistQueryFn (.parsed ⟨some 42, some 0⟩)
      ⟨CACHE_DURATION, some 7⟩).stored = .parsed ⟨some 42, some 0⟩ := by
  refine ⟨by decide, ?_, ?_, ?_⟩ <;> rfl

/-- C2 (amended): whenever the stored entry is absent, fails to parse, or
has a numeric timestamp with `now − timestamp > CACHE_DURATION` (strict),
`queryFn` makes exactly one network call, and when the call succeeds it
persists the returned count with a fresh timestamp and returns it. -/
theorem getCount_stale_fetches_once (st : Stored) (env : QueryEnv)
    (h : triggersFetch st env) :
    (waitlistQueryFn st env).netCalls = 1 ∧
    ∀ c, env.server = some c →
      (waitlistQueryFn st env).stored = .parsed ⟨some c, some env.now⟩ ∧
      (waitlistQueryFn st env).result = .ok (some c) := by
  rcases h with h | h | ⟨e, t, he, ht, hexp⟩
  · subst h
    cases hs : env.server <;>
      simp [waitlistQueryFn, fetchAndPersist, hs]
  · subst h
    cases hs : env.server <;>
      simp [waitlistQueryFn, fetchAndPersist, hs]
  · subst he
    cases hs : env.server <;>
      simp [waitlistQueryFn, fetchAndPersist, ht, hexp, hs]

/-- Witness for C2's amended theorem at a concrete input: empty cache,
server answering 5 at time 100. -/
theorem getCount_stale_fetches_once_witness :
    triggersFetch .absent ⟨100, some 5⟩ ∧
    (waitlistQueryFn .absent ⟨100, some 5⟩).netCalls = 1 ∧
    (waitlistQueryFn .absent ⟨100, some 5⟩).stored =
      .parsed ⟨some 5, some 100⟩ ∧
    (waitlistQueryFn .absent ⟨100, some 5⟩).result = .ok (some 5) := by
  have h := getCount_stale_fetches_once .absent ⟨100, some 5⟩ (Or.inl rfl)
  exact ⟨Or.inl rfl, h.1, (h.2 5 rfl).1, (h.2 5 rfl).2⟩

/-- C3: a well-formed cached record with `now − timestamp < CACHE_DURATION`
is served as-is: `queryFn` returns the stored count, makes zero network
calls, and leaves the cache untouched. -/
theorem getCount_fresh_cache_no_network (c t : Int) (env : QueryEnv)
    (h : env.now - t < CACHE_DURATION) :
    (waitlistQueryFn (.parsed ⟨some c, some t⟩) env).result = .ok (some c) ∧
    (waitlistQueryFn (.parsed ⟨some c, some t⟩) env).netCalls = 0 ∧
    (waitlistQueryFn (.parsed ⟨some c, some t⟩) env).stored =
      .parsed ⟨some c, some t⟩ := by
  have hnot : ¬ env.now - t > CACHE_DURATION := by omega
  simp [waitlistQueryFn, hnot]

/-- Witness for C3: cache `{count: 42, timestamp: 0}` at time 1. -/
theorem getCount_fresh_cache_no_network_witness :
    (1 : Int) - 0 < CACHE_DURATION ∧
    (waitlistQueryFn (.parsed ⟨some 42, some 0⟩) ⟨1, some 99⟩).result =
      .ok (some 42) ∧
    (waitlistQueryFn (.parsed ⟨some 42, some 0⟩) ⟨1, some 99⟩).netCalls = 0 ∧
    (waitlistQueryFn (.parsed ⟨some 42, some 0⟩) ⟨1, some 99⟩).stored =
      .parsed ⟨some 42, some 0⟩ :=
  ⟨by decide, getCount_fresh_cache_no_network 42 0 ⟨1, some 99⟩ (by decide)⟩

/-- C4: a failed `submit` — non-2xx response or network rejection — leaves
the whole widget state (cached count, displayed count, success flag)
unchanged and produces only an error notification. -/
theorem submit_failure_no_mutation (s : AppState) (now : Int) :
    (∀ e, (submit s now (.errBody e)).state = s ∧
      (submit s now (.errBody e)).errorToast = some (joinErrorMessage e) ∧
      (submit s now (.errBody e)).successToast = false ∧
      (submit s now (.errBody e)).confetti = false) ∧
    (∀ msg, (submit s now (.netErr msg)).state = s ∧
      (submit s now (.netErr msg)).errorToast = some msg ∧
      (submit s now (.netErr msg)).successToast = false ∧
      (submit s now (.netErr msg)).confetti = false) := by
  exact ⟨fun e => ⟨rfl, rfl, rfl, rfl⟩, fun msg => ⟨rfl, rfl, rfl, rfl⟩⟩

/-- C5 counterexample: a non-2xx body with `error` present but equal to
the empty string — a string field — yields the generic message, not the
verbatim field, because `errorData.error || "Failed to join waitlist"`
treats `""` as falsy. -/
theorem join_error_empty_string_counterexample :
    (submit ⟨some 42, .absent, none, false⟩ 0
      (.errBody (some ""))).errorToast = some "Failed to join waitlist" ∧
    "Failed to join waitlist" ≠ "" := by
  exact ⟨rfl, by decide⟩

/-- C5 (amended): a non-empty `error` string in the failure body is shown
verbatim; an absent or empty `error` field (or an unparseable body) yields
the generic "Failed to join waitlist" message. -/
theorem join_error_message_verbatim (s : AppState) (now : Int)
    (e : Option String) :
    (∀ str, e = some str → str ≠ "" →
      (submit s now (.errBody e)).errorToast = some str) ∧
    (e = none ∨ e = some "" →
      (submit s now (.errBody e)).errorToast =
        some "Failed to join waitlist") := by
  constructor
  · intro str hstr hne
    subst hstr
    simp [submit, joinErrorMessage, hne]
  · rintro (h | h) <;> subst h <;> simp [submit, joinErrorMessage]

/-- Witness for C5's amended theorem: the spec scenario, body
`{error: "already joined"}`. -/
theorem join_error_message_verbatim_witness :
    (submit ⟨some 42, .absent, none, false⟩ 0
      (.errBody (some "already joined"))).errorToast =
      some "already joined" :=
  (join_error_message_verbatim ⟨some 42, .absent, none, false⟩ 0
    (some "already joined")).1 "already joined" rfl (by decide)

/-- C6: if the remote count fetch fails, `queryFn` leaves the persisted
cache entry exactly as it was, and whenever it made a network call at all
the operation fails with the fetch error. -/
theorem getCount_fetch_failure_no_mutation (st : Stored) (env : QueryEnv)
    (h : env.server = none) :
    (waitlistQueryFn st env).stored = st ∧
    ((waitlistQueryFn st env).netCalls ≠ 0 →
      (waitlistQueryFn st env).result =
        .error "Failed to get waitlist count") := by
  cases st with
  | absent => simp [waitlistQueryFn, fetchAndPersist, h]
  | unparseable => simp [waitlistQueryFn, fetchAndPersist, h]
  | parsed e =>
      cases ht : e.timestamp with
      | none => simp [waitlistQueryFn, ht]
      | some t =>
          by_cases hexp : env.now - t > CACHE_DURATION <;>
            simp [waitlistQueryFn, fetchAndPersist, ht, hexp, h]

/-- Witness for C6: expired cache `{count: 42, timestamp: 0}` at a time
past the TTL with the server failing. -/
theorem getCount_fetch_failure_no_mutation_witness :
    (⟨9000000, none⟩ : QueryEnv).server = none ∧
    (waitlistQueryFn (.parsed ⟨some 42, some 0⟩) ⟨9000000, none⟩).stored =
      .parsed ⟨some 42, some 0⟩ ∧
    ((waitlistQueryFn (.parsed ⟨some 42, some 0⟩) ⟨9000000, none⟩).netCalls ≠ 0 →
      (waitlistQueryFn (.parsed ⟨some 42, some 0⟩) ⟨9000000, none⟩).result =
        .error "Failed to get waitlist count") := by
  have h := getCount_fetch_failure_no_mutation (.parsed ⟨some 42, some 0⟩)
    ⟨9000000, none⟩ rfl
  exact ⟨rfl, h.1, h.2⟩

/-- C7 counterexample: the stored value `{}` parses successfully but is
not a `{count, timestamp}` record; `queryFn` does not treat it as a cache
miss — it makes no network call, logs nothing, and returns the undefined
count (because `Date.now() - undefined` is `NaN` and the expiry comparison
is false). -/
theorem malformed_cache_counterexample :
    (waitlistQueryFn (.parsed ⟨none, none⟩) ⟨0, some 5⟩).netCalls = 0 ∧
    (waitlistQueryFn (.parsed ⟨none, none⟩) ⟨0, some 5⟩).loggedParseError =
      false ∧
    (waitlistQueryFn (.parsed ⟨none, none⟩) ⟨0, some 5⟩).result = .ok none := by
  exact ⟨rfl, rfl, rfl⟩

/-- C7 (amended): only stored values on which `JSON.parse` (or the
destructuring) throws are treated as a cache miss: the parse error is
logged, not surfaced, and `queryFn` proceeds exactly as if no entry were
stored — same result, one network call, and on success the same persisted
entry. -/
theorem unparseable_cache_is_miss (env : QueryEnv) :
    (waitlistQueryFn .unparseable env).loggedParseError = true ∧
    (waitlistQueryFn .unparseable env).netCalls = 1 ∧
    (waitlistQueryFn .unparseable env).result =
      (waitlistQueryFn .absent env).result ∧
    ∀ c, env.server = some c →
      (waitlistQueryFn .unparseable env).stored =
        (waitlistQueryFn .absent env).stored := by
  cases hs : env.server <;>
    simp [waitlistQueryFn, fetchAndPersist, hs]

/-- Witness for C7's amended theorem at a concrete successful fetch. -/
theorem unparseable_cache_is_miss_witness :
    (waitlistQueryFn .unparseable ⟨7, some 5⟩).loggedParseError = true ∧
    (waitlistQueryFn .unparseable ⟨7, some 5⟩).netCalls = 1 ∧
    (waitlistQueryFn .unparseable ⟨7, some 5⟩).result =
      (waitlistQueryFn .absent ⟨7, some 5⟩).result ∧
    (waitlistQueryFn .unparseable ⟨7, some 5⟩).stored =
      (waitlistQueryFn .absent ⟨7, some 5⟩).stored := by
  have h := unparseable_cache_is_miss ⟨7, some 5⟩
  exact ⟨h.1, h.2.1, h.2.2.1, h.2.2.2 5 rfl⟩

/-- C8 counterexample: with a fresh cached record `{count: -5}`, `queryFn`
returns −5 — the cached count is served unvalidated, so the result need
not be a non-negative integer. -/
theorem getCount_negative_counterexample :
    (waitlistQueryFn (.parsed ⟨some (-5), some 0⟩) ⟨0, some 3⟩).result =
      .ok (some (-5)) ∧
    (-5 : Int) < 0 := by
  exact ⟨rfl, by decide⟩

/-- C8 (amended): `getCount` returns a non-negative integer provided the
server returns non-negative counts and any cache record it would serve
(fresh, or with an undefined timestamp) holds a non-negative integer
count; the cached value itself is never validated. -/
theorem getCount_nonneg_under_assumptions (st : Stored) (env : QueryEnv)
    (hs : ∀ c, env.server = some c → 0 ≤ c)
    (hcache : goodCacheCount st env) :
    ∀ v, (waitlistQueryFn st env).result = .ok v →
      ∃ k, v = some k ∧ 0 ≤ k := by
  intro v hv
  cases st with
  | absent =>
      cases hsv : env.server with
      | none => simp [waitlistQueryFn, fetchAndPersist, hsv] at hv
      | some c =>
          simp [waitlistQueryFn, fetchAndPersist, hsv] at hv
          exact ⟨c, by simp [← hv], hs c hsv⟩
  | unparseable =>
      cases hsv : env.server with
      | none => simp [waitlistQueryFn, fetchAndPersist, hsv] at hv
      | some c =>
          simp [waitlistQueryFn, fetchAndPersist, hsv] at hv
          exact ⟨c, by simp [← hv], hs c hsv⟩
  | parsed e =>
      cases ht : e.timestamp with
      | none =>
          simp [waitlistQueryFn, ht] at hv
          obtain ⟨k, hk, h0⟩ := hcache e rfl (by simp [ht])
          exact ⟨k, by simp [← hv, hk], h0⟩
      | some t =>
          by_cases hexp : env.now - t > CACHE_DURATION
          · cases hsv : env.server with
            | none => simp [waitlistQueryFn, fetchAndPersist, ht, hexp, hsv] at hv
            | some c =>
                simp [waitlistQueryFn, fetchAndPersist, ht, hexp, hsv] at hv
                exact ⟨c, by simp [← hv], hs c hsv⟩
          · simp [waitlistQueryFn, ht, hexp] at hv
            obtain ⟨k, hk, h0⟩ := hcache e rfl
              (by intro u hu hgt; rw [ht] at hu; cases hu; exact hexp hgt)
            exact ⟨k, by simp [← hv, hk], h0⟩

/-- Witness for C8's amended theorem: empty cache, server count 3. -/
theorem getCount_nonneg_witness :
    ∃ k, (some (3 : Int)) = some k ∧ 0 ≤ k :=
  getCount_nonneg_under_assumptions .absent ⟨0, some 3⟩
    (fun c hc => by cases hc; decide)
    (fun e he _ => by cases he)
    (some 3) rfl

/-- C9: once the persisted success flag holds `"true"`, no operation in
scope — the count query, any submit outcome, or the form effect — changes
it, and on load the effect restores the submitted UI state from it. -/
theorem success_flag_monotone (s : AppState) (env : QueryEnv) (now : Int)
    (resp : SubmitResp) (h : s.successFlagStored = some "true") :
    (runQuery s env).1.successFlagStored = some "true" ∧
    (submit s now resp).state.successFlagStored = some "true" ∧
    (successEffect s).1.successFlagStored = some "true" ∧
    (successEffect s).2 = true := by
  refine ⟨?_, ?_, ?_, ?_⟩
  · show s.successFlagStored = some "true"
    exact h
  · cases resp <;> simp [submit, h]
  · by_cases hm : s.successMem <;> simp [successEffect, hm, h]
  · by_cases hm : s.successMem <;> simp [successEffect, hm, h]

/-- Witness for C9 at a concrete state with the flag set. -/
theorem success_flag_monotone_witness :
    (⟨some 4, .absent, some "true", false⟩ : AppState).successFlagStored =
      some "true" ∧
    (runQuery ⟨some 4, .absent, some "true", false⟩ ⟨0, some 9⟩).1.successFlagStored =
      some "true" ∧
    (submit ⟨some 4, .absent, some "true", false⟩ 0 .ok2xx).state.successFlagStored =
      some "true" ∧
    (successEffect ⟨some 4, .absent, some "true", false⟩).1.successFlagStored =
      some "true" ∧
    (successEffect ⟨some 4, .absent, some "true", false⟩).2 = true := by
  have h := success_flag_monotone ⟨some 4, .absent, some "true", false⟩
    ⟨0, some 9⟩ 0 .ok2xx rfl
  exact ⟨rfl, h.1, h.2.1, h.2.2.1, h.2.2.2⟩

/-- C10: with no count data available (`query.data?.count` undefined), the
displayed count is `0`, and a successful submit in that state sets both
the displayed and the persisted cached count to exactly `1`. -/
theorem no_data_displays_zero (st : Stored) (flag : Option String)
    (mem : Bool) (now : Int) :
    displayedCount ⟨none, st, flag, mem⟩ = 0 ∧
    displayedCount (submit ⟨none, st, flag, mem⟩ now .ok2xx).state = 1 ∧
    (submit ⟨none, st, flag, mem⟩ now .ok2xx).state.stored =
      .parsed ⟨some 1, some now⟩ := by
  refine ⟨rfl, ?_, rfl⟩
  simp [displayedCount, submit]
